import Mathlib

/-!
Verification of the bitburst_server pipeline service (`service/service.go`,
`models/objects.go`) via a shallow embedding in Lean 4.

Time instants and durations are modelled as integers (Go durations are
int64 nanoseconds); `second` is the number of nanoseconds in one second, so
`second * retentionSec` is `time.Second * time.Duration(RetentionPolicySec)`.
-/

namespace Bitburst

/-- One second, in nanoseconds (Go `time.Second`). -/
def second : Int := 1000000000

/-- `models.Object`: `ID int`, `LastSeenAt *time.Time` (optional UTC
instant), `Online bool`. -/
structure Object where
  id : Int
  lastSeenAt : Option Int
  online : Bool
  deriving DecidableEq

/-- `models.ObjectsInput`: the callback payload, field `object_ids`.
A JSON body in which the field is absent or null decodes to the empty
list (Go yields a nil slice; ranging over it is zero iterations). -/
structure ObjectsInput where
  objectIDs : List Int
  deriving DecidableEq

/-- A `*time.Timer` as the service observes it: `active` means the runtime
still has the timer scheduled (a `Stop` would prevent the firing),
`deadline` is the absolute instant at which it fires when active, and
`chanPending` records whether a fire signal is sitting unconsumed in the
timer channel `C`. -/
structure GoTimer where
  active : Bool
  deadline : Int
  chanPending : Bool
  deriving DecidableEq

/-- `time.NewTimer(d)` created at instant `now`. -/
def GoTimer.new (now d : Int) : GoTimer :=
  { active := true, deadline := now + d, chanPending := false }

/-- `t.Stop()`: returns `true` iff the call prevented the timer from
firing; afterwards the timer is no longer scheduled. -/
def timerStop (t : GoTimer) : Bool × GoTimer :=
  (t.active, { t with active := false })

/-- `<-t.C`: consume the pending fire signal. -/
def timerDrain (t : GoTimer) : GoTimer :=
  { t with chanPending := false }

/-- `t.Reset(d)` at instant `now`: re-arm the timer. Go does not clear the
channel on reset, which is why the code drains it first. -/
def timerReset (now d : Int) (t : GoTimer) : GoTimer :=
  { t with active := true, deadline := now + d }

/-- A timer is well formed when a fire signal can only be pending after
the runtime has fired it, i.e. while it is no longer scheduled. -/
def GoTimer.WF (t : GoTimer) : Prop := t.active = true → t.chanPending = false

/-- `service.go:30` `timer.byID map[int]*time.Timer`, as an association
list keyed by identifier. -/
def Registry := List (Int × GoTimer)

/-- Map lookup `s.timers.byID[id]`. -/
def Registry.find : Registry → Int → Option GoTimer
  | [], _ => none
  | (k, v) :: rest, id => if k = id then some v else Registry.find rest id

/-- Map write `s.timers.byID[id] = t` (replaces any entry for `id`). -/
def Registry.write (r : Registry) (id : Int) (t : GoTimer) : Registry :=
  (id, t) :: (List.filter (fun p => p.1 ≠ id) r)

/-- Map removal `delete(s.timers.byID, id)`. -/
def Registry.erase (r : Registry) (id : Int) : Registry :=
  List.filter (fun p => p.1 ≠ id) r

/-- The keys currently present in the registry. -/
def Registry.keys (r : Registry) : List Int := List.map Prod.fst r

/-- Observable actions of the expiration manager and of the per-timer
fire task (`handleObjectsExpiration`, service.go:147-181). -/
inductive Ev
  | lock
  | unlock
  | insertT (id : Int)
  | stopT (id : Int)
  | drainT (id : Int)
  | resetT (id : Int)
  | removeT (id : Int)
  | pushDelete (id : Int)
  | spawnFire (id : Int)
  | readChan (id : Int)
  deriving DecidableEq

/-- Which events mutate the timer registry. -/
def Ev.isMutation : Ev → Bool
  | .insertT _ => true
  | .resetT _ => true
  | .removeT _ => true
  | _ => false

/-- Net effect of an event on the registry-mutex hold depth. -/
def Ev.lockDelta : Ev → Int
  | .lock => 1
  | .unlock => -1
  | _ => 0

/-- Mutex hold depth after a sequence of events. -/
def lockDepth (es : List Ev) : Int :=
  List.foldl (fun d e => d + Ev.lockDelta e) 0 es

/-- Every registry mutation in the trace happens while the mutex is held
(hold depth ≥ 1 at the mutation), checked left to right starting from
hold depth `d`. -/
def mutationsLockedFrom : Int → List Ev → Bool
  | _, [] => true
  | d, e :: es =>
    (!e.isMutation || decide (1 ≤ d)) && mutationsLockedFrom (d + e.lockDelta) es

/-- Every registry mutation of the trace happens under the mutex. -/
def mutationsLocked (es : List Ev) : Bool := mutationsLockedFrom 0 es

/-- The timer horizon chosen by `handleObjectsExpiration` when no timer
exists for the identifier (service.go:154-160): the residual window when
`LastSeenAt` is present and the age is below retention, the full window
otherwise. -/
def newTimerDuration (retentionSec now : Int) (lastSeenAt : Option Int) : Int :=
  match lastSeenAt with
  | some ls =>
    if now - ls < second * retentionSec then
      second * retentionSec - (now - ls)
    else
      second * retentionSec
  | none => second * retentionSec

/-- The refresh path of `handleObjectsExpiration` (service.go:172-176):
`if !timer.Stop() { <-timer.C }; timer.Reset(retention)`. -/
def refreshTimer (retentionSec now : Int) (t : GoTimer) : GoTimer :=
  let stopRes := timerStop t
  let t1 := if stopRes.1 then stopRes.2 else timerDrain stopRes.2
  timerReset now (second * retentionSec) t1

/-- One step of the expiration manager on a record drained from the
expiration queue (service.go:152-178): new registry plus the event
trace the step performs. -/
def expirationStep (retentionSec now : Int) (reg : Registry) (obj : Object) :
    Registry × List Ev :=
  match Registry.find reg obj.id with
  | none =>
    (Registry.write reg obj.id
        (GoTimer.new now (newTimerDuration retentionSec now obj.lastSeenAt)),
     [.lock, .insertT obj.id, .unlock, .spawnFire obj.id])
  | some t =>
    let stopRes := timerStop t
    (Registry.write reg obj.id (refreshTimer retentionSec now t),
     [Ev.lock, Ev.stopT obj.id]
       ++ (if stopRes.1 then [] else [Ev.drainT obj.id])
       ++ [Ev.resetT obj.id, Ev.unlock])

/-- The per-timer fire task (service.go:163-170): wait on the timer
channel, then under the mutex remove the entry and push the identifier
onto the delete queue. -/
def fireTrace (id : Int) : List Ev :=
  [.readChan id, .lock, .removeT id, .pushDelete id, .unlock]

/-- Registry effect of the fire task: `delete(s.timers.byID, id)`. -/
def fireRegistry (reg : Registry) (id : Int) : Registry :=
  Registry.erase reg id

/-- Delete-queue effect of the fire task: the one identifier pushed. -/
def fireDeletes (id : Int) : List Int := [id]

/-- The registry states the service can reach: it starts empty
(`make(map[int]*time.Timer)`, service.go:76) and is mutated only by the
expiration-manager step and by the fire task. -/
inductive Reachable : Registry → Prop
  | init : Reachable []
  | step (retentionSec now : Int) (obj : Object) (reg : Registry) :
      Reachable reg → Reachable (expirationStep retentionSec now reg obj).1
  | fire (id : Int) (reg : Registry) :
      Reachable reg → Reachable (fireRegistry reg id)

/-- Pushes onto the downstream queues. -/
inductive QueueOp
  | upsert (o : Object)
  | expire (o : Object)
  | delete (id : Int)
  deriving DecidableEq

/-- How one fetch of `GET /objects/{id}` by `retrieveObjects` can go:
request construction fails, the transport fails, the body fails to
decode (`closeErr` records whether closing the body also failed), or a
record decodes (again with the body-close outcome). -/
inductive FetchOutcome
  | reqError
  | transportError
  | decodeError (closeErr : Bool)
  | ok (info : Object) (closeErr : Bool)
  deriving DecidableEq

/-- Result of one fetch task: the queue pushes it performs and whether it
logged at error level. -/
structure FetchResult where
  ops : List QueueOp
  errLogged : Bool
  deriving DecidableEq

/-- One per-identifier task of the status fetcher (service.go:189-231).
`rid` is the identifier the request was built from; after decoding, only
the `id` carried in the response body is used. On a successful decode of
an online record the task stamps `LastSeenAt = now` and pushes the record
to the upsert queue and then to the expiration queue; on an offline
record it pushes the body identifier to the delete queue. A body-close
failure is logged but does not stop the task; request, transport and
decode failures log and return. -/
def retrieveOne (rid now : Int) (outcome : FetchOutcome) : FetchResult :=
  match outcome with
  | .reqError => { ops := [], errLogged := true }
  | .transportError => { ops := [], errLogged := true }
  | .decodeError _ => { ops := [], errLogged := true }
  | .ok info closeErr =>
    let info := if info.online then { info with lastSeenAt := some now } else info
    let _ := rid
    match info.online with
    | true => { ops := [.upsert info, .expire info], errLogged := closeErr }
    | false => { ops := [.delete info.id], errLogged := closeErr }

/-- An HTTP response of the callback handler. -/
structure HttpResponse where
  status : Nat
  body : String
  deriving DecidableEq

/-- The `POST /callback` handler (service.go:252-272). `decoded` is the
outcome of `json.Decode` on the request body: `none` on decode failure.
Returns the response together with the identifiers the background task
pushes onto the input queue, in order. A decode failure answers
400 `invalid request` and pushes nothing; otherwise the handler returns
(an implicit 200) and every identifier of `object_ids` is pushed. -/
def handleCallback (decoded : Option ObjectsInput) : HttpResponse × List Int :=
  match decoded with
  | none => ({ status := 400, body := "invalid request" }, [])
  | some input => ({ status := 200, body := "" }, input.objectIDs)

/-- Routing of one stored record by the cold-start reconciler
(service.go:120-126): a record whose `LastSeenAt` is present and strictly
older than the retention window goes to the delete queue; every other
record goes, whole, to the expiration queue. -/
def coldStartRoute (retentionSec now : Int) (r : Object) : QueueOp :=
  match r.lastSeenAt with
  | some ls =>
    if now - ls > second * retentionSec then .delete r.id else .expire r
  | none => .expire r

/-- The cold-start scan over everything `GetAll` returned. -/
def coldStart (retentionSec now : Int) (objs : List Object) : List QueueOp :=
  List.map (coldStartRoute retentionSec now) objs

/-- The long-lived workers and the listener `Run` spawns
(service.go:90-96). -/
inductive Task
  | coldStartTask
  | callbackRoute
  | retrieveObjectsTask
  | handleUpsertTask
  | handleExpirationTask
  | handleDeleteTask
  | httpListen
  deriving DecidableEq

/-- The part of the service state `Run` reads and writes. -/
structure ServiceState where
  isRunning : Bool
  deriving DecidableEq

/-- `Run` (service.go:84-96): when `isRunning` is already set it returns
at once spawning nothing; otherwise it sets the flag and spawns the six
workers and the HTTP listener. -/
def runService (s : ServiceState) : ServiceState × List Task :=
  if s.isRunning then (s, [])
  else ({ s with isRunning := true },
    [.coldStartTask, .callbackRoute, .retrieveObjectsTask, .handleUpsertTask,
     .handleExpirationTask, .handleDeleteTask, .httpListen])

/-! Helper lemmas about the registry. -/

theorem Registry.find_write_self (r : Registry) (id : Int) (t : GoTimer) :
    Registry.find (Registry.write r id t) id = some t := by
  simp [Registry.write, Registry.find]

theorem Registry.find_erase_self (r : Registry) (id : Int) :
    Registry.find (Registry.erase r id) id = none := by
  induction r with
  | nil => rfl
  | cons hd tl ih =>
    by_cases h : hd.1 = id
    · simpa [Registry.erase, List.filter_cons, h] using ih
    · simpa [Registry.erase, List.filter_cons, h, Registry.find] using ih

theorem Registry.keys_write_nodup (r : Registry) (id : Int) (t : GoTimer)
    (h : (Registry.keys r).Nodup) :
    (Registry.keys (Registry.write r id t)).Nodup := by
  simp only [Registry.write, Registry.keys, List.map_cons]
  refine List.nodup_cons.mpr ⟨?_, ?_⟩
  · intro hmem
    simp only [List.mem_map, List.mem_filter, ne_eq, decide_not,
      Bool.not_eq_eq_eq_not, Bool.not_true, decide_eq_false_iff_not] at hmem
    obtain ⟨p, ⟨_, hne⟩, hpe⟩ := hmem
    exact hne hpe
  · exact ((List.filter_sublist r).map Prod.fst).nodup h

theorem Registry.keys_erase_nodup (r : Registry) (id : Int)
    (h : (Registry.keys r).Nodup) :
    (Registry.keys (Registry.erase r id)).Nodup :=
  ((List.filter_sublist r).map Prod.fst).nodup h

/-! Claim theorems. -/

/-- Claim C1: when the expiration manager receives a record for an
identifier with no existing timer, the new timer's horizon is the
residual window `retention − (now − last_seen_at)` when `last_seen_at` is
present and the age is below retention, and the full retention window
otherwise (`last_seen_at` absent, or age at least retention). -/
theorem expiration_new_timer_horizon (retentionSec now : Int) (reg : Registry)
    (obj : Object) (hnone : Registry.find reg obj.id = none) :
    ∃ t : GoTimer,
      Registry.find (expirationStep retentionSec now reg obj).1 obj.id = some t ∧
      t.active = true ∧
      (∀ ls, obj.lastSeenAt = some ls → now - ls < second * retentionSec →
        t.deadline = now + (second * retentionSec - (now - ls))) ∧
      (∀ ls, obj.lastSeenAt = some ls → ¬ (now - ls < second * retentionSec) →
        t.deadline = now + second * retentionSec) ∧
      (obj.lastSeenAt = none → t.deadline = now + second * retentionSec) := by
  refine ⟨GoTimer.new now (newTimerDuration retentionSec now obj.lastSeenAt),
    ?_, rfl, ?_, ?_, ?_⟩
  · simp [expirationStep, hnone, Registry.find_write_self]
  · intro ls hls hlt
    simp [GoTimer.new, newTimerDuration, hls, hlt]
  · intro ls hls hge
    simp [GoTimer.new, newTimerDuration, hls, hge]
  · intro hnoneSeen
    simp [GoTimer.new, newTimerDuration, hnoneSeen]

/-- Witness for C1 at retention 30s, now 100, a cold-start record last
seen at instant 90 (age 10ns, below retention): the horizon is residual. -/
theorem expiration_new_timer_horizon_witness :
    ∃ t : GoTimer,
      Registry.find
        (expirationStep 30 100 [] { id := 7, lastSeenAt := some 90, online := true }).1
        (7 : Int) = some t ∧
      t.active = true ∧
      (∀ ls, (some (90 : Int)) = some ls → (100 : Int) - ls < second * 30 →
        t.deadline = 100 + (second * 30 - (100 - ls))) ∧
      (∀ ls, (some (90 : Int)) = some ls → ¬ ((100 : Int) - ls < second * 30) →
        t.deadline = 100 + second * 30) ∧
      ((some (90 : Int)) = (none : Option Int) → t.deadline = 100 + second * 30) :=
  expiration_new_timer_horizon 30 100 []
    { id := 7, lastSeenAt := some 90, online := true } rfl

/-- Claim C2: when the expiration manager receives a record for an
identifier that already has a timer, it refreshes it: a stop is issued;
exactly when the stop reports the timer already fired, the fire signal is
drained; and the surviving timer is re-armed at the full retention
horizon with no stale fire signal pending. -/
theorem expiration_refresh (retentionSec now : Int) (reg : Registry)
    (obj : Object) (t : GoTimer)
    (hfound : Registry.find reg obj.id = some t) (hwf : t.WF) :
    ∃ t' : GoTimer,
      Registry.find (expirationStep retentionSec now reg obj).1 obj.id = some t' ∧
      t'.active = true ∧
      t'.deadline = now + second * retentionSec ∧
      t'.chanPending = false ∧
      Ev.stopT obj.id ∈ (expirationStep retentionSec now reg obj).2 ∧
      (t.active = false → Ev.drainT obj.id ∈ (expirationStep retentionSec now reg obj).2) ∧
      (t.active = true → Ev.drainT obj.id ∉ (expirationStep retentionSec now reg obj).2) := by
  refine ⟨refreshTimer retentionSec now t, ?_, ?_, rfl, ?_, ?_, ?_, ?_⟩
  · simp [expirationStep, hfound, Registry.find_write_self]
  · rfl
  · cases hact : t.active with
    | true => simp [refreshTimer, timerStop, timerReset, hact, hwf hact]
    | false => simp [refreshTimer, timerStop, timerDrain, timerReset, hact]
  · simp [expirationStep, hfound]
  · intro hact
    simp [expirationStep, hfound, timerStop, hact]
  · intro hact
    simp [expirationStep, hfound, timerStop, hact]

/-- Witness for C2: a registry holding a fired timer for id 7 with its
signal still pending; the refresh drains it and re-arms at full
retention. -/
theorem expiration_refresh_witness :
    ∃ t' : GoTimer,
      Registry.find
        (expirationStep 30 100 [((7 : Int), { active := false, deadline := 50, chanPending := true })]
          { id := 7, lastSeenAt := none, online := true }).1 (7 : Int) = some t' ∧
      t'.active = true ∧
      t'.deadline = 100 + second * 30 ∧
      t'.chanPending = false ∧
      Ev.stopT 7 ∈ (expirationStep 30 100 [((7 : Int), { active := false, deadline := 50, chanPending := true })]
          { id := 7, lastSeenAt := none, online := true }).2 ∧
      ((false : Bool) = false → Ev.drainT 7 ∈
        (expirationStep 30 100 [((7 : Int), { active := false, deadline := 50, chanPending := true })]
          { id := 7, lastSeenAt := none, online := true }).2) ∧
      ((false : Bool) = true → Ev.drainT 7 ∉
        (expirationStep 30 100 [((7 : Int), { active := false, deadline := 50, chanPending := true })]
          { id := 7, lastSeenAt := none, online := true }).2) :=
  expiration_refresh 30 100
    [((7 : Int), { active := false, deadline := 50, chanPending := true })]
    { id := 7, lastSeenAt := none, online := true }
    { active := false, deadline := 50, chanPending := true }
    (by decide) (by intro h; exact absurd h (by decide))

/-- Claim C3: in every reachable registry state each identifier has at
most one entry, and every registry mutation in the traces of the
expiration manager (first-event insert, refresh) and of the fire task
(removal) happens while the single registry mutex is held. -/
theorem registry_unique_and_locked (reg : Registry) (hreach : Reachable reg) :
    (∀ i : Int, List.count i (Registry.keys reg) ≤ 1) ∧
    (∀ retentionSec now : Int, ∀ obj : Object,
      mutationsLocked (expirationStep retentionSec now reg obj).2 = true) ∧
    (∀ id : Int, mutationsLocked (fireTrace id) = true) := by
  refine ⟨?_, ?_, fun _ => rfl⟩
  · have hnodup : (Registry.keys reg).Nodup := by
      induction hreach with
      | init => exact List.nodup_nil
      | step retentionSec now obj reg _ ih =>
        cases hfind : Registry.find reg obj.id with
        | none =>
          simp only [expirationStep, hfind]
          exact Registry.keys_write_nodup reg obj.id _ ih
        | some t =>
          simp only [expirationStep, hfind]
          exact Registry.keys_write_nodup reg obj.id _ ih
      | fire id reg _ ih => exact Registry.keys_erase_nodup reg id ih
    exact List.nodup_iff_count_le_one.mp hnodup
  · intro retentionSec now obj
    cases hfind : Registry.find reg obj.id with
    | none => simp [expirationStep, hfind, mutationsLocked, mutationsLockedFrom,
        Ev.isMutation, Ev.lockDelta]
    | some t =>
      cases hact : t.active with
      | true => simp [expirationStep, hfind, timerStop, hact, mutationsLocked,
          mutationsLockedFrom, Ev.isMutation, Ev.lockDelta]
      | false => simp [expirationStep, hfind, timerStop, hact, mutationsLocked,
          mutationsLockedFrom, Ev.isMutation, Ev.lockDelta]

/-- Witness for C3 at the reachable state obtained by one insert for id 7
followed by one refresh for id 7. -/
theorem registry_unique_and_locked_witness :
    List.count (7 : Int)
      (Registry.keys
        (expirationStep 30 200
          (expirationStep 30 100 [] { id := 7, lastSeenAt := none, online := true }).1
          { id := 7, lastSeenAt := none, online := true }).1) ≤ 1 ∧
    mutationsLocked (fireTrace 7) = true :=
  ⟨(registry_unique_and_locked _
      (Reachable.step 30 200 _ _ (Reachable.step 30 100 _ [] Reachable.init))).1 7,
   (registry_unique_and_locked [] Reachable.init).2.2 7⟩

/-- Claim C4: when a timer for identifier `i` fires, the fire task, inside
a single mutex-guarded critical section, first removes `i` from the
registry and only afterwards pushes `i` onto the delete queue; nothing is
enqueued and nothing is mutated outside that section, and after the
removal the registry holds no entry for `i`. -/
theorem fire_removes_before_delete (id : Int) (reg : Registry) :
    (∃ pre mid post,
      fireTrace id = pre ++ [Ev.lock] ++ mid ++ [Ev.unlock] ++ post ∧
      Ev.lock ∉ mid ∧ Ev.unlock ∉ mid ∧
      Ev.lock ∉ pre ∧ Ev.unlock ∉ pre ∧
      (∃ m1 m2, mid = m1 ++ [Ev.removeT id] ++ m2 ∧
        Ev.pushDelete id ∈ m2 ∧ Ev.pushDelete id ∉ m1) ∧
      (∀ e ∈ pre, e.isMutation = false ∧ e ≠ Ev.pushDelete id) ∧
      (∀ e ∈ post, e.isMutation = false ∧ e ≠ Ev.pushDelete id)) ∧
    Registry.find (fireRegistry reg id) id = none ∧
    fireDeletes id = [id]  := by
  refine ⟨⟨[Ev.readChan id], [Ev.removeT id, Ev.pushDelete id], [], ?_, ?_, ?_, ?_, ?_,
      ⟨[], [Ev.pushDelete id], rfl, ?_, ?_⟩, ?_, ?_⟩,
    Registry.find_erase_self reg id, rfl⟩
  · rfl
  · simp
  · simp
  · simp
  · simp
  · simp
  · simp
  · intro e he
    simp only [List.mem_singleton] at he
    subst he
    exact ⟨rfl, by simp⟩
  · intro e he
    simp at he

/-- Claim C5: on a successfully decoded tester response, an online record
is stamped `last_seen_at = now` and pushed to the upsert queue and then to
the expiration queue; an offline response pushes the identifier taken
from the response body onto the delete queue — whatever identifier `rid`
the request was built from — and nothing reaches the upsert or expiration
queues. -/
theorem fetcher_routes_by_online (rid now : Int) (info : Object) (closeErr : Bool) :
    (info.online = true →
      (retrieveOne rid now (.ok info closeErr)).ops =
        [QueueOp.upsert { info with lastSeenAt := some now },
         QueueOp.expire { info with lastSeenAt := some now }]) ∧
    (info.online = false →
      (retrieveOne rid now (.ok info closeErr)).ops = [QueueOp.delete info.id] ∧
      (∀ o, QueueOp.upsert o ∉ (retrieveOne rid now (.ok info closeErr)).ops) ∧
      (∀ o, QueueOp.expire o ∉ (retrieveOne rid now (.ok info closeErr)).ops)) := by
  constructor
  · intro hon
    simp [retrieveOne, hon]
  · intro hoff
    refine ⟨by simp [retrieveOne, hoff], ?_, ?_⟩
    · intro o
      simp [retrieveOne, hoff]
    · intro o
      simp [retrieveOne, hoff]

/-- Witness for C5: the tester answers for id 9 although id 3 was asked;
the offline body routes 9 — not 3 — to the delete queue. -/
theorem fetcher_routes_by_online_witness :
    (retrieveOne 3 100 (.ok { id := 9, lastSeenAt := none, online := false } false)).ops =
      [QueueOp.delete 9] ∧
    (∀ o, QueueOp.upsert o ∉
      (retrieveOne 3 100 (.ok { id := 9, lastSeenAt := none, online := false } false)).ops) ∧
    (∀ o, QueueOp.expire o ∉
      (retrieveOne 3 100 (.ok { id := 9, lastSeenAt := none, online := false } false)).ops) :=
  (fetcher_routes_by_online 3 100 { id := 9, lastSeenAt := none, online := false } false).2 rfl

/-- Claim C6: a `POST /callback` body that fails to decode is answered
with status 400 and body `invalid request` and pushes nothing onto the
input queue; a body that decodes is answered 200 and every identifier of
`object_ids` is pushed, in order. -/
theorem callback_status_and_enqueue (decoded : Option ObjectsInput) :
    (decoded = none →
      handleCallback decoded = ({ status := 400, body := "invalid request" }, [])) ∧
    (∀ input, decoded = some input →
      (handleCallback decoded).1.status = 200 ∧
      (handleCallback decoded).2 = input.objectIDs) := by
  constructor
  · intro h
    simp [handleCallback, h]
  · intro input h
    simp [handleCallback, h]

/-- Witness for C6 on a decodable body carrying ids 1, 2, 2. -/
theorem callback_status_and_enqueue_witness :
    (handleCallback (some { objectIDs := [1, 2, 2] })).1.status = 200 ∧
    (handleCallback (some { objectIDs := [1, 2, 2] })).2 =
      ObjectsInput.objectIDs { objectIDs := [1, 2, 2] } :=
  (callback_status_and_enqueue (some { objectIDs := [1, 2, 2] })).2
    { objectIDs := [1, 2, 2] } rfl

/-- Claim C7: the cold-start scan routes a record whose `last_seen_at` is
present and strictly older than the retention window to the delete queue
by its id, and every other record — `last_seen_at` absent, age below
retention, or age exactly the retention window — whole to the expiration
queue. -/
theorem cold_start_routing (retentionSec now : Int) (r : Object) :
    (∀ ls, r.lastSeenAt = some ls → now - ls > second * retentionSec →
      coldStartRoute retentionSec now r = .delete r.id) ∧
    (r.lastSeenAt = none → coldStartRoute retentionSec now r = .expire r) ∧
    (∀ ls, r.lastSeenAt = some ls → ¬ (now - ls > second * retentionSec) →
      coldStartRoute retentionSec now r = .expire r) ∧
    (∀ ls, r.lastSeenAt = some ls → now - ls = second * retentionSec →
      coldStartRoute retentionSec now r = .expire r) := by
  refine ⟨?_, ?_, ?_, ?_⟩
  · intro ls hls hgt
    simp [coldStartRoute, hls, hgt]
  · intro hnone
    simp [coldStartRoute, hnone]
  · intro ls hls hle
    simp [coldStartRoute, hls, hle]
  · intro ls hls heq
    simp [coldStartRoute, hls, heq]

/-- Witness for C7: a record whose age is exactly the retention window is
kept for the expiration queue, not deleted. -/
theorem cold_start_routing_witness :
    coldStartRoute 30 (second * 30) { id := 11, lastSeenAt := some 0, online := false } =
      QueueOp.expire { id := 11, lastSeenAt := some 0, online := false } :=
  (cold_start_routing 30 (second * 30)
    { id := 11, lastSeenAt := some 0, online := false }).2.2.2 0 rfl (by ring)

/-- Counterexample to C8 as stated: a response that decodes to an online
record while closing the body fails. The close failure is logged, yet the
task still enqueues — the record goes to the upsert and expiration
queues, so a body-close failure does not drop the identifier. -/
theorem fetcher_drop_counterexample :
    (retrieveOne 7 100 (.ok { id := 7, lastSeenAt := none, online := true } true)).errLogged
      = true ∧
    ¬ (retrieveOne 7 100 (.ok { id := 7, lastSeenAt := none, online := true } true)).ops
      = [] := by
  constructor
  · rfl
  · decide

/-- Claim C8 (amended): a request-construction failure, a transport
failure, or a non-decodable response body is logged and drops the
identifier — nothing is enqueued on any queue for that cycle; a
body-close failure is logged at error level but does not drop the
identifier — the decoded record is still routed, so the task enqueues. -/
theorem fetcher_drops_on_failure (rid now : Int) (outcome : FetchOutcome)
    (h : outcome = .reqError ∨ outcome = .transportError ∨
      ∃ c, outcome = .decodeError c) :
    ((retrieveOne rid now outcome).ops = [] ∧
      (retrieveOne rid now outcome).errLogged = true) ∧
    (∀ info : Object,
      (retrieveOne rid now (.ok info true)).errLogged = true ∧
      (retrieveOne rid now (.ok info true)).ops ≠ []) := by
  constructor
  · rcases h with h | h | ⟨c, h⟩ <;> subst h <;> exact ⟨rfl, rfl⟩
  · intro info
    cases hon : info.online with
    | true => exact ⟨by simp [retrieveOne, hon], by simp [retrieveOne, hon]⟩
    | false => exact ⟨by simp [retrieveOne, hon], by simp [retrieveOne, hon]⟩

/-- Witness for the amended C8 at a transport failure. -/
theorem fetcher_drops_on_failure_witness :
    ((retrieveOne 7 100 FetchOutcome.transportError).ops = [] ∧
      (retrieveOne 7 100 FetchOutcome.transportError).errLogged = true) ∧
    (∀ info : Object,
      (retrieveOne 7 100 (.ok info true)).errLogged = true ∧
      (retrieveOne 7 100 (.ok info true)).ops ≠ []) :=
  fetcher_drops_on_failure 7 100 FetchOutcome.transportError (Or.inr (Or.inl rfl))

/-- Claim C9: a callback body that decodes with `object_ids` absent, null
or empty is answered 200, pushes no identifier onto the input queue, and
leaves any queue contents unchanged. -/
theorem callback_empty_ids_noop (input : ObjectsInput)
    (h : input.objectIDs = []) :
    (handleCallback (some input)).1.status = 200 ∧
    (handleCallback (some input)).2 = [] ∧
    (∀ q : List Int, q ++ (handleCallback (some input)).2 = q) := by
  refine ⟨rfl, by simp [handleCallback, h], ?_⟩
  intro q
  simp [handleCallback, h]

/-- Witness for C9 at the empty payload. -/
theorem callback_empty_ids_noop_witness :
    (handleCallback (some { objectIDs := [] })).1.status = 200 ∧
    (handleCallback (some { objectIDs := [] })).2 = [] ∧
    (∀ q : List Int, q ++ (handleCallback (some { objectIDs := [] })).2 = q) :=
  callback_empty_ids_noop { objectIDs := [] } rfl

/-- Claim C10: calling `Run` on a service whose `isRunning` flag is
already set returns at once, spawning no worker and no listener and
leaving the state unchanged. -/
theorem run_second_call_noop (s : ServiceState) (h : s.isRunning = true) :
    runService s = (s, []) := by
  simp [runService, h]

/-- Witness for C10 on the running state. -/
theorem run_second_call_noop_witness :
    runService { isRunning := true } = ({ isRunning := true }, []) :=
  run_second_call_noop { isRunning := true } rfl

end Bitburst
